import Mathlib

/-!
# Shallow embedding of the Alpaca trading MCP server (`src/server.py`)

The server is a stateless dispatch layer: a fixed tool catalog (`list_tools`,
lines 68–209) and a dispatcher (`call_tool`, lines 211–281) that extracts
arguments, delegates to a per-tool helper, and renders the helper's result
(or a caught exception) as a single JSON payload.

Modelling conventions:
* JSON values are `JVal` (strings, rationals for Python floats, integers,
  booleans, null, arrays, objects as association lists).  The dispatcher's
  final `json.dumps` serialization into one `TextContent` is left abstract:
  `call_tool` here returns the single structured value that gets serialized.
* Each brokerage/data-client call is an oracle field of type `Except String α`:
  `.error msg` models the call raising an exception whose `str()` is `msg`.
  `try/except Exception` blocks become `match` on that `Except`.
* Numeric brokerage fields that the Python SDK delivers as optional non-empty
  decimal strings (so Python truthiness coincides with presence) are modelled
  as `Option ℚ`; the code's `float(x) if x else …` guard becomes a `match` on
  the option.  Always-present numeric fields are plain `ℚ`.
* `arguments["k"]` raising `KeyError` (whose `str()` is `'k'` with quotes) is
  modelled by `getItem`; `arguments.get(k, d)` by `getD` on the lookup.
-/

/-- A JSON-like value: the shape of everything the dispatcher serializes.
Python floats are carried as `ℚ` (only conversions occur, no arithmetic). -/
inductive JVal where
  | str (s : String)
  | num (q : ℚ)
  | int (n : ℤ)
  | bool (b : Bool)
  | null
  | arr (xs : List JVal)
  | obj (kvs : List (String × JVal))

/-- The singleton error object `{"error": s}` produced by every `except` arm. -/
def errObj (s : String) : JVal := .obj [("error", .str s)]

/-- Association-list lookup, modelling `dict.__getitem__` key search. -/
def alookup (kvs : List (String × JVal)) (k : String) : Option JVal :=
  match kvs with
  | [] => none
  | (k', v) :: rest => if k' = k then some v else alookup rest k

/-- Model of `arguments[k]`: raises `KeyError(k)` (rendered `'k'`) when the key is
absent, per `call_tool` lines 233–262. -/
def getItem (args : List (String × JVal)) (k : String) : Except String JVal :=
  match alookup args k with
  | some v => .ok v
  | none => .error ("'" ++ k ++ "'")

/-- Model of `arguments.get(k, d)`: total lookup with default, per lines 227 and 268. -/
def getD (args : List (String × JVal)) (k : String) (d : JVal) : JVal :=
  (alookup args k).getD d

/-! ## Brokerage-side raw DTOs (fields the code reads from SDK objects) -/

/-- Account snapshot fields read by `_get_account_info` (lines 286–304). -/
structure RawAccount where
  account_number : String
  status : String
  currency : String
  buying_power : ℚ
  cash : ℚ
  portfolio_value : ℚ
  equity : ℚ
  last_equity : ℚ
  long_market_value : ℚ
  short_market_value : ℚ
  pattern_day_trader : Bool
  trading_blocked : Bool
  transfers_blocked : Bool
  account_blocked : Bool
  trade_suspended_by_user : Bool
  daytrade_count : ℤ
  daytrading_buying_power : Option ℚ

/-- Position fields read by `_get_positions` (lines 314–327). -/
structure RawPosition where
  symbol : String
  qty : ℚ
  avg_entry_price : ℚ
  market_value : ℚ
  cost_basis : ℚ
  unrealized_pl : ℚ
  unrealized_plpc : ℚ
  current_price : Option ℚ
  lastday_price : Option ℚ
  change_today : Option ℚ
  side : String

/-- Order fields read by `_get_orders` (lines 343–362) and by the two order
placement helpers from the submit response. -/
structure RawOrder where
  id : String
  symbol : String
  qty : ℚ
  filled_qty : Option ℚ
  side : String
  order_type : String
  time_in_force : String
  status : String
  created_at : String
  updated_at : String
  filled_at : Option String
  expired_at : Option String
  canceled_at : Option String
  failed_at : Option String
  limit_price : Option ℚ
  stop_price : Option ℚ
  filled_avg_price : Option ℚ

/-- Quote fields read by `_get_stock_quote` (lines 441–445). -/
structure RawQuote where
  ask_price : ℚ
  ask_size : ℤ
  bid_price : ℚ
  bid_size : ℤ
  timestamp : String

/-! ## Request objects built by the helpers -/

/-- The `QueryOrderStatus` values used by `_get_orders`. -/
inductive QueryOrderStatus where
  | open
  | closed
  | all
deriving DecidableEq

/-- The `OrderSide` enum. -/
inductive OrderSide where
  | buy
  | sell
deriving DecidableEq

/-- The `TimeInForce` enum (only DAY is used). -/
inductive TimeInForce where
  | day
deriving DecidableEq

/-- Model of `GetOrdersRequest`: freshly constructed with no status, then optionally
assigned one (lines 335–339). -/
structure GetOrdersRequest where
  status : Option QueryOrderStatus
deriving DecidableEq

/-- Model of `MarketOrderRequest` (lines 370–375).  `symbol` and `qty` are the caller's
argument values, passed through unchanged. -/
structure MarketOrderRequest where
  symbol : JVal
  qty : JVal
  side : OrderSide
  time_in_force : TimeInForce

/-- Model of `LimitOrderRequest` (lines 396–402). -/
structure LimitOrderRequest where
  symbol : JVal
  qty : JVal
  side : OrderSide
  time_in_force : TimeInForce
  limit_price : JVal

/-! ## Client oracles

One invocation's worth of brokerage behaviour: each field gives the outcome
(`.ok` result or `.error` exception message) of the corresponding SDK call. -/

structure TradingClient where
  get_account : Except String RawAccount
  get_all_positions : Except String (List RawPosition)
  get_orders : GetOrdersRequest → Except String (List RawOrder)
  submit_market_order : MarketOrderRequest → Except String RawOrder
  submit_limit_order : LimitOrderRequest → Except String RawOrder
  cancel_order_by_id : JVal → Except String Unit
  close_position : JVal → Except String Unit
  close_all_positions : JVal → Except String Unit

structure DataClient where
  /-- Field `get_stock_latest_quote` returns a dict keyed by symbol string. -/
  get_stock_latest_quote : JVal → Except String (List (String × RawQuote))

/-! ## Per-tool helpers -/

/-- Model of `float(x) if x else None` on an optional numeric field. -/
def optNum : Option ℚ → JVal
  | some q => .num q
  | none => .null

/-- Model of `str(x) if x else None` on an optional timestamp field. -/
def optStr : Option String → JVal
  | some s => .str s
  | none => .null

/-- The `_get_account_info` success payload (lines 287–305).
`daytrading_buying_power` falls back to the integer `0` when absent. -/
def accountInfoObj (a : RawAccount) : JVal :=
  .obj [
    ("account_number", .str a.account_number),
    ("status", .str a.status),
    ("currency", .str a.currency),
    ("buying_power", .num a.buying_power),
    ("cash", .num a.cash),
    ("portfolio_value", .num a.portfolio_value),
    ("equity", .num a.equity),
    ("last_equity", .num a.last_equity),
    ("long_market_value", .num a.long_market_value),
    ("short_market_value", .num a.short_market_value),
    ("pattern_day_trader", .bool a.pattern_day_trader),
    ("trading_blocked", .bool a.trading_blocked),
    ("transfers_blocked", .bool a.transfers_blocked),
    ("account_blocked", .bool a.account_blocked),
    ("trade_suspended_by_user", .bool a.trade_suspended_by_user),
    ("daytrade_count", .int a.daytrade_count),
    ("daytrading_buying_power",
      match a.daytrading_buying_power with
      | some q => .num q
      | none => .int 0)
  ]

/-- Model of `_get_account_info` (lines 283–307). -/
def _get_account_info (tc : TradingClient) : JVal :=
  match tc.get_account with
  | .ok a => accountInfoObj a
  | .error e => errObj e

/-- One element of `_get_positions`'s result list (lines 315–327). -/
def positionRow (p : RawPosition) : JVal :=
  .obj [
    ("symbol", .str p.symbol),
    ("quantity", .num p.qty),
    ("avg_entry_price", .num p.avg_entry_price),
    ("market_value", .num p.market_value),
    ("cost_basis", .num p.cost_basis),
    ("unrealized_pl", .num p.unrealized_pl),
    ("unrealized_plpc", .num p.unrealized_plpc),
    ("current_price", optNum p.current_price),
    ("lastday_price", optNum p.lastday_price),
    ("change_today", optNum p.change_today),
    ("side", .str p.side)
  ]

/-- Model of `_get_positions` (lines 309–330): a JSON array on success, a one-element
array holding the error object on failure. -/
def _get_positions (tc : TradingClient) : JVal :=
  match tc.get_all_positions with
  | .ok ps => .arr (ps.map positionRow)
  | .error e => .arr [errObj e]

/-- Status-string → `GetOrdersRequest` translation of lines 335–339: the
request starts with no status; `"open"`/`"closed"` assign the matching filter;
every other value (including `"all"`, and any non-string) leaves it unset. -/
def ordersRequestFor (status : JVal) : GetOrdersRequest :=
  match status with
  | .str s =>
    if s = "open" then ⟨some .open⟩
    else if s = "closed" then ⟨some .closed⟩
    else ⟨none⟩
  | _ => ⟨none⟩

/-- One element of `_get_orders`'s result list (lines 344–362).  Note the
asymmetry: absent `filled_qty` renders as the integer `0` while the other
optional numeric fields render as `null`. -/
def orderRow (o : RawOrder) : JVal :=
  .obj [
    ("id", .str o.id),
    ("symbol", .str o.symbol),
    ("quantity", .num o.qty),
    ("filled_qty",
      match o.filled_qty with
      | some q => .num q
      | none => .int 0),
    ("side", .str o.side),
    ("order_type", .str o.order_type),
    ("time_in_force", .str o.time_in_force),
    ("limit_price", optNum o.limit_price),
    ("stop_price", optNum o.stop_price),
    ("status", .str o.status),
    ("created_at", .str o.created_at),
    ("updated_at", .str o.updated_at),
    ("filled_at", optStr o.filled_at),
    ("expired_at", optStr o.expired_at),
    ("canceled_at", optStr o.canceled_at),
    ("failed_at", optStr o.failed_at),
    ("filled_avg_price", optNum o.filled_avg_price)
  ]

/-- Model of `_get_orders` (lines 332–365). -/
def _get_orders (tc : TradingClient) (status : JVal) : JVal :=
  match tc.get_orders (ordersRequestFor status) with
  | .ok os => .arr (os.map orderRow)
  | .error e => .arr [errObj e]

/-- Python's `str.lower()`: lowercase the string character by character. -/
def lowerStr (s : String) : String := ⟨s.data.map Char.toLower⟩

/-- The side translation shared by both order helpers (lines 373 and 399):
`OrderSide.BUY if side.lower() == "buy" else OrderSide.SELL`. -/
def orderSideFor (side : String) : OrderSide :=
  if lowerStr side = "buy" then .buy else .sell

/-- The `MarketOrderRequest` built on lines 370–375 for a string side. -/
def marketOrderRequestFor (symbol quantity : JVal) (side : String) :
    MarketOrderRequest :=
  ⟨symbol, quantity, orderSideFor side, .day⟩

/-- The `LimitOrderRequest` built on lines 396–402 for a string side. -/
def limitOrderRequestFor (symbol quantity : JVal) (side : String)
    (limit_price : JVal) : LimitOrderRequest :=
  ⟨symbol, quantity, orderSideFor side, .day, limit_price⟩

/-- Success payload of `_place_market_order` (lines 379–389). -/
def marketOrderResultObj (o : RawOrder) : JVal :=
  .obj [
    ("success", .bool true),
    ("order_id", .str o.id),
    ("symbol", .str o.symbol),
    ("quantity", .num o.qty),
    ("side", .str o.side),
    ("order_type", .str o.order_type),
    ("time_in_force", .str o.time_in_force),
    ("status", .str o.status),
    ("created_at", .str o.created_at)
  ]

/-- Model of `_place_market_order` (lines 367–391).  A non-string `side` makes
`side.lower()` raise `AttributeError`, caught by the helper's own handler. -/
def _place_market_order (tc : TradingClient) (symbol quantity side : JVal) :
    JVal :=
  match side with
  | .str s =>
    match tc.submit_market_order (marketOrderRequestFor symbol quantity s) with
    | .ok o => marketOrderResultObj o
    | .error e => errObj e
  | _ => errObj "side object has no attribute lower"

/-- Model of `float(order.limit_price)` on line 414: raises on an absent field. -/
def pyFloatOfOpt : Option ℚ → Except String ℚ
  | some q => .ok q
  | none => .error "float() argument must be a string or a real number, not NoneType"

/-- Model of `_place_limit_order` (lines 393–419).  The unconditional
`float(order.limit_price)` on the response can itself raise and is caught. -/
def _place_limit_order (tc : TradingClient)
    (symbol quantity side limit_price : JVal) : JVal :=
  match side with
  | .str s =>
    match tc.submit_limit_order
        (limitOrderRequestFor symbol quantity s limit_price) with
    | .ok o =>
      match pyFloatOfOpt o.limit_price with
      | .ok lp =>
        .obj [
          ("success", .bool true),
          ("order_id", .str o.id),
          ("symbol", .str o.symbol),
          ("quantity", .num o.qty),
          ("side", .str o.side),
          ("order_type", .str o.order_type),
          ("time_in_force", .str o.time_in_force),
          ("limit_price", .num lp),
          ("status", .str o.status),
          ("created_at", .str o.created_at)
        ]
      | .error e => errObj e
    | .error e => errObj e
  | _ => errObj "side object has no attribute lower"

/-- Model of `str(order_id)` interpolation in the f-strings of lines 427 and 456.
Only the string case matters to any stated property. -/
def pyStr : JVal → String
  | .str s => s
  | .num q => toString q
  | .int n => toString n
  | .bool b => if b then "True" else "False"
  | .null => "None"
  | .arr _ => "[...]"
  | .obj _ => "{...}"

/-- Model of `_cancel_order` (lines 421–430). -/
def _cancel_order (tc : TradingClient) (order_id : JVal) : JVal :=
  match tc.cancel_order_by_id order_id with
  | .ok _ =>
    .obj [
      ("success", .bool true),
      ("message", .str ("Order " ++ pyStr order_id ++ " cancelled successfully"))
    ]
  | .error e => errObj e

/-- Model of `quotes[symbol]` on line 437: dict indexing, `KeyError` when absent. -/
def quoteLookup (qs : List (String × RawQuote)) (symbol : JVal) :
    Except String RawQuote :=
  match symbol with
  | .str s =>
    match qs.lookup s with
    | some q => .ok q
    | none => .error ("'" ++ s ++ "'")
  | _ => .error "unhashable or missing key"

/-- Model of `_get_stock_quote` (lines 432–448). -/
def _get_stock_quote (dc : DataClient) (symbol : JVal) : JVal :=
  match dc.get_stock_latest_quote symbol with
  | .ok qs =>
    match quoteLookup qs symbol with
    | .ok q =>
      .obj [
        ("symbol", symbol),
        ("ask_price", .num q.ask_price),
        ("ask_size", .int q.ask_size),
        ("bid_price", .num q.bid_price),
        ("bid_size", .int q.bid_size),
        ("timestamp", .str q.timestamp)
      ]
    | .error e => errObj e
  | .error e => errObj e

/-- Model of `_close_position` (lines 450–459). -/
def _close_position (tc : TradingClient) (symbol : JVal) : JVal :=
  match tc.close_position symbol with
  | .ok _ =>
    .obj [
      ("success", .bool true),
      ("message", .str ("Position for " ++ pyStr symbol ++ " closed successfully"))
    ]
  | .error e => errObj e

/-- Model of `_close_all_positions` (lines 461–471). -/
def _close_all_positions (tc : TradingClient) (cancel_orders : JVal) : JVal :=
  match tc.close_all_positions cancel_orders with
  | .ok _ =>
    .obj [
      ("success", .bool true),
      ("message", .str "All positions closed successfully"),
      ("orders_cancelled", cancel_orders)
    ]
  | .error e => errObj e

/-! ## The dispatcher -/

/-- The top-level `try`/`except` of `call_tool` (lines 215 and 277–281):
a value that was computed without raising is returned as-is; an escaped
exception is rendered as `{"error": str(e)}`. -/
def runCaught (r : Except String JVal) : JVal :=
  match r with
  | .ok v => v
  | .error e => errObj e

/-- Model of `call_tool` (lines 211–281).  The name is matched against the if/elif
chain; required arguments are extracted with `arguments[...]` (which can
raise `KeyError`); the helpers themselves never raise.  Whatever escapes the
chain is caught by the top-level handler and rendered as `{"error": str(e)}`.
The returned `JVal` is the value serialized into the single `TextContent`. -/
def call_tool (tc : TradingClient) (dc : DataClient) (name : String)
    (args : List (String × JVal)) : JVal :=
  runCaught <|
    if name = "get_account_info" then
      .ok (_get_account_info tc)
    else if name = "get_positions" then
      .ok (_get_positions tc)
    else if name = "get_orders" then
      .ok (_get_orders tc (getD args "status" (.str "open")))
    else if name = "place_market_order" then do
      let symbol ← getItem args "symbol"
      let quantity ← getItem args "quantity"
      let side ← getItem args "side"
      pure (_place_market_order tc symbol quantity side)
    else if name = "place_limit_order" then do
      let symbol ← getItem args "symbol"
      let quantity ← getItem args "quantity"
      let side ← getItem args "side"
      let limit_price ← getItem args "limit_price"
      pure (_place_limit_order tc symbol quantity side limit_price)
    else if name = "cancel_order" then do
      let order_id ← getItem args "order_id"
      pure (_cancel_order tc order_id)
    else if name = "get_stock_quote" then do
      let symbol ← getItem args "symbol"
      pure (_get_stock_quote dc symbol)
    else if name = "close_position" then do
      let symbol ← getItem args "symbol"
      pure (_close_position tc symbol)
    else if name = "close_all_positions" then
      .ok (_close_all_positions tc (getD args "cancel_orders" (.bool false)))
    else
      .ok (errObj ("Unknown tool: " ++ name))

/-! ## The tool catalog -/

/-- An MCP `Tool` declaration: name, description and JSON-schema. -/
structure Tool where
  name : String
  description : String
  inputSchema : JVal

/-- Model of `list_tools` (lines 68–209): the fixed catalog, constructed afresh (and
identically — the construction is literal) on every call. -/
def list_tools : List Tool :=
  [
    { name := "get_account_info",
      description := "Get account information including balance and buying power",
      inputSchema := .obj [
        ("type", .str "object"),
        ("properties", .obj [])
      ] },
    { name := "get_positions",
      description := "Get all current positions in the portfolio",
      inputSchema := .obj [
        ("type", .str "object"),
        ("properties", .obj [])
      ] },
    { name := "get_orders",
      description := "Get orders with optional status filter",
      inputSchema := .obj [
        ("type", .str "object"),
        ("properties", .obj [
          ("status", .obj [
            ("type", .str "string"),
            ("description", .str "Filter orders by status (open, closed, all)"),
            ("enum", .arr [.str "open", .str "closed", .str "all"]),
            ("default", .str "open")
          ])
        ])
      ] },
    { name := "place_market_order",
      description := "Place a market order to buy or sell a stock",
      inputSchema := .obj [
        ("type", .str "object"),
        ("properties", .obj [
          ("symbol", .obj [
            ("type", .str "string"),
            ("description", .str "Stock ticker symbol")
          ]),
          ("quantity", .obj [
            ("type", .str "number"),
            ("description", .str "Number of shares to trade")
          ]),
          ("side", .obj [
            ("type", .str "string"),
            ("description", .str "Order side (buy or sell)"),
            ("enum", .arr [.str "buy", .str "sell"])
          ])
        ]),
        ("required", .arr [.str "symbol", .str "quantity", .str "side"])
      ] },
    { name := "place_limit_order",
      description := "Place a limit order with a specific price",
      inputSchema := .obj [
        ("type", .str "object"),
        ("properties", .obj [
          ("symbol", .obj [
            ("type", .str "string"),
            ("description", .str "Stock ticker symbol")
          ]),
          ("quantity", .obj [
            ("type", .str "number"),
            ("description", .str "Number of shares to trade")
          ]),
          ("side", .obj [
            ("type", .str "string"),
            ("description", .str "Order side (buy or sell)"),
            ("enum", .arr [.str "buy", .str "sell"])
          ]),
          ("limit_price", .obj [
            ("type", .str "number"),
            ("description", .str "Limit price for the order")
          ])
        ]),
        ("required", .arr [.str "symbol", .str "quantity", .str "side", .str "limit_price"])
      ] },
    { name := "cancel_order",
      description := "Cancel an open order by its ID",
      inputSchema := .obj [
        ("type", .str "object"),
        ("properties", .obj [
          ("order_id", .obj [
            ("type", .str "string"),
            ("description", .str "The ID of the order to cancel")
          ])
        ]),
        ("required", .arr [.str "order_id"])
      ] },
    { name := "get_stock_quote",
      description := "Get the latest quote for a stock",
      inputSchema := .obj [
        ("type", .str "object"),
        ("properties", .obj [
          ("symbol", .obj [
            ("type", .str "string"),
            ("description", .str "Stock ticker symbol")
          ])
        ]),
        ("required", .arr [.str "symbol"])
      ] },
    { name := "close_position",
      description := "Close a position for a specific symbol",
      inputSchema := .obj [
        ("type", .str "object"),
        ("properties", .obj [
          ("symbol", .obj [
            ("type", .str "string"),
            ("description", .str "Stock ticker symbol to close position for")
          ])
        ]),
        ("required", .arr [.str "symbol"])
      ] },
    { name := "close_all_positions",
      description := "Close all open positions in the account",
      inputSchema := .obj [
        ("type", .str "object"),
        ("properties", .obj [
          ("cancel_orders", .obj [
            ("type", .str "boolean"),
            ("description", .str "Also cancel all open orders"),
            ("default", .bool false)
          ])
        ])
      ] }
  ]

/-- The `required` argument names declared by a tool's schema ([] if none). -/
def requiredOf (t : Tool) : List String :=
  match t.inputSchema with
  | .obj kvs =>
    match alookup kvs "required" with
    | some (.arr xs) => xs.filterMap (fun v => match v with | .str s => some s | _ => none)
    | _ => []
  | _ => []

/-- The declared property (argument) names of a tool's schema. -/
def propertiesOf (t : Tool) : List String :=
  match t.inputSchema with
  | .obj kvs =>
    match alookup kvs "properties" with
    | some (.obj ps) => ps.map Prod.fst
    | _ => []
  | _ => []

/-- The optional argument names: declared properties that are not required. -/
def optionalOf (t : Tool) : List String :=
  (propertiesOf t).filter (fun p => !(requiredOf t).contains p)

/-! ## Result-shape predicates -/

/-- Does an association list carry an `"error"` key? -/
def hasErrorKey (kvs : List (String × JVal)) : Bool :=
  kvs.any (fun kv => kv.1 == "error")

/-- A JSON object free of any `"error"` key: one success row / payload. -/
def cleanObj : JVal → Bool
  | .obj kvs => !(hasErrorKey kvs)
  | _ => false

/-- A success payload as the dispatcher produces them: an object without an
`"error"` key, or an array all of whose elements are such objects. -/
def isSuccessVal : JVal → Bool
  | .obj kvs => !(hasErrorKey kvs)
  | .arr xs => xs.all cleanObj
  | _ => false

/-- Is the value a JSON object at all? (The claim under test asserts every
result is an object — a success object or `{error: string}`.) -/
def isObjVal : JVal → Bool
  | .obj _ => true
  | _ => false

/-- An error payload as the dispatcher produces them: the singleton object
`{"error": s}`, or (for the two list-returning tools) that object wrapped in
a one-element array. -/
def IsErrorPayload (r : JVal) : Prop :=
  ∃ s, r = errObj s ∨ r = .arr [errObj s]

/-- Exactly one of: success payload, error payload. -/
def WellFormedResult (r : JVal) : Prop :=
  (isSuccessVal r = true ∧ ¬ IsErrorPayload r) ∨
  (IsErrorPayload r ∧ isSuccessVal r = false)

/-- Field extraction from a JSON object (`none` on non-objects). -/
def rowField (r : JVal) (k : String) : Option JVal :=
  match r with
  | .obj kvs => alookup kvs k
  | _ => none

/-! ## Concrete fixtures used by counterexamples and witnesses -/

/-- A raw order with every optional field absent. -/
def sampleOrder : RawOrder :=
  { id := "o1", symbol := "AAPL", qty := 5, filled_qty := none,
    side := "buy", order_type := "market", time_in_force := "day",
    status := "new", created_at := "t0", updated_at := "t1",
    filled_at := none, expired_at := none, canceled_at := none,
    failed_at := none, limit_price := none, stop_price := none,
    filled_avg_price := none }

/-- A second raw order, distinguishing filtered from unfiltered listings. -/
def order2 : RawOrder :=
  { sampleOrder with id := "o2", status := "filled" }

/-- A raw account with `daytrading_buying_power` absent. -/
def sampleAccount : RawAccount :=
  { account_number := "acct", status := "ACTIVE", currency := "USD",
    buying_power := 100, cash := 100, portfolio_value := 100, equity := 100,
    last_equity := 100, long_market_value := 0, short_market_value := 0,
    pattern_day_trader := false, trading_blocked := false,
    transfers_blocked := false, account_blocked := false,
    trade_suspended_by_user := false, daytrade_count := 0,
    daytrading_buying_power := none }

/-- A raw position with every optional field absent. -/
def samplePosition : RawPosition :=
  { symbol := "AAPL", qty := 5, avg_entry_price := 10, market_value := 50,
    cost_basis := 50, unrealized_pl := 0, unrealized_plpc := 0,
    current_price := none, lastday_price := none, change_today := none,
    side := "long" }

/-- A trading client every one of whose calls raises `Exception("boom")`. -/
def tcFail : TradingClient :=
  { get_account := .error "boom",
    get_all_positions := .error "boom",
    get_orders := fun _ => .error "boom",
    submit_market_order := fun _ => .error "boom",
    submit_limit_order := fun _ => .error "boom",
    cancel_order_by_id := fun _ => .error "boom",
    close_position := fun _ => .error "boom",
    close_all_positions := fun _ => .error "boom" }

/-- A data client whose quote call raises. -/
def dcFail : DataClient :=
  { get_stock_latest_quote := fun _ => .error "boom" }

/-- A data client that succeeds but returns an empty quote batch. -/
def dcEmpty : DataClient :=
  { get_stock_latest_quote := fun _ => .ok [] }

/-- A trading client that accepts every order, echoing `sampleOrder`. -/
def tcAccept : TradingClient :=
  { get_account := .ok sampleAccount,
    get_all_positions := .ok [samplePosition],
    get_orders := fun _ => .ok [sampleOrder],
    submit_market_order := fun _ => .ok sampleOrder,
    submit_limit_order := fun _ => .ok sampleOrder,
    cancel_order_by_id := fun _ => .ok (),
    close_position := fun _ => .ok (),
    close_all_positions := fun _ => .ok () }

/-- A trading client whose order listing depends on the status filter:
the OPEN filter sees one order, no filter sees two. -/
def tcOrders : TradingClient :=
  { tcFail with
    get_orders := fun req =>
      if req.status = some QueryOrderStatus.open then .ok [sampleOrder]
      else .ok [sampleOrder, order2] }

/-! ## Helper lemmas: result shapes -/

theorem cleanObj_positionRow (p : RawPosition) : cleanObj (positionRow p) = true := rfl

theorem cleanObj_orderRow (o : RawOrder) : cleanObj (orderRow o) = true := rfl

theorem isSuccessVal_clean_arr (xs : List JVal) (h : ∀ x ∈ xs, cleanObj x = true) :
    isSuccessVal (.arr xs) = true := by
  simpa [isSuccessVal, List.all_eq_true] using h

theorem not_errorPayload_obj (kvs : List (String × JVal))
    (h : hasErrorKey kvs = false) : ¬ IsErrorPayload (.obj kvs) := by
  rintro ⟨s, hs | hs⟩
  · rw [errObj] at hs
    injection hs with hk
    subst hk
    simp [hasErrorKey] at h
  · exact JVal.noConfusion hs

theorem not_errorPayload_clean_arr (xs : List JVal)
    (h : ∀ x ∈ xs, cleanObj x = true) : ¬ IsErrorPayload (.arr xs) := by
  rintro ⟨s, hs | hs⟩
  · rw [errObj] at hs
    exact JVal.noConfusion hs
  · injection hs with hxs
    subst hxs
    have := h (errObj s) (List.mem_singleton_self _)
    simp [cleanObj, errObj, hasErrorKey] at this

theorem wellFormed_errObj (s : String) : WellFormedResult (errObj s) :=
  .inr ⟨⟨s, .inl rfl⟩, rfl⟩

theorem wellFormed_arr_errObj (s : String) : WellFormedResult (.arr [errObj s]) :=
  .inr ⟨⟨s, .inr rfl⟩, rfl⟩

theorem wellFormed_cleanObj (kvs : List (String × JVal))
    (h : hasErrorKey kvs = false) : WellFormedResult (.obj kvs) :=
  .inl ⟨by simp [isSuccessVal, h], not_errorPayload_obj kvs h⟩

theorem wellFormed_clean_arr (xs : List JVal) (h : ∀ x ∈ xs, cleanObj x = true) :
    WellFormedResult (.arr xs) :=
  .inl ⟨isSuccessVal_clean_arr xs h, not_errorPayload_clean_arr xs h⟩

theorem wellFormed_account (tc : TradingClient) :
    WellFormedResult (_get_account_info tc) := by
  unfold _get_account_info
  cases tc.get_account with
  | ok a => exact wellFormed_cleanObj _ rfl
  | error e => exact wellFormed_errObj e

theorem wellFormed_positions (tc : TradingClient) :
    WellFormedResult (_get_positions tc) := by
  unfold _get_positions
  cases tc.get_all_positions with
  | ok ps =>
    refine wellFormed_clean_arr _ ?_
    intro x hx
    rcases List.mem_map.mp hx with ⟨p, -, rfl⟩
    exact cleanObj_positionRow p
  | error e => exact wellFormed_arr_errObj e

theorem wellFormed_orders (tc : TradingClient) (status : JVal) :
    WellFormedResult (_get_orders tc status) := by
  unfold _get_orders
  cases tc.get_orders (ordersRequestFor status) with
  | ok os =>
    refine wellFormed_clean_arr _ ?_
    intro x hx
    rcases List.mem_map.mp hx with ⟨o, -, rfl⟩
    exact cleanObj_orderRow o
  | error e => exact wellFormed_arr_errObj e

theorem wellFormed_market (tc : TradingClient) (symbol quantity side : JVal) :
    WellFormedResult (_place_market_order tc symbol quantity side) := by
  unfold _place_market_order
  cases side
  case str s =>
    dsimp only
    cases tc.submit_market_order (marketOrderRequestFor symbol quantity s) with
    | ok o => exact wellFormed_cleanObj _ rfl
    | error e => exact wellFormed_errObj e
  all_goals exact wellFormed_errObj _

theorem wellFormed_limit (tc : TradingClient)
    (symbol quantity side limit_price : JVal) :
    WellFormedResult (_place_limit_order tc symbol quantity side limit_price) := by
  unfold _place_limit_order
  cases side
  case str s =>
    dsimp only
    cases tc.submit_limit_order (limitOrderRequestFor symbol quantity s limit_price) with
    | ok o =>
      dsimp only
      cases o.limit_price with
      | some lp => dsimp only [pyFloatOfOpt]; exact wellFormed_cleanObj _ rfl
      | none => dsimp only [pyFloatOfOpt]; exact wellFormed_errObj _
    | error e => exact wellFormed_errObj e
  all_goals exact wellFormed_errObj _

theorem wellFormed_cancel (tc : TradingClient) (order_id : JVal) :
    WellFormedResult (_cancel_order tc order_id) := by
  unfold _cancel_order
  cases tc.cancel_order_by_id order_id with
  | ok u => exact wellFormed_cleanObj _ rfl
  | error e => exact wellFormed_errObj e

theorem wellFormed_quote (dc : DataClient) (symbol : JVal) :
    WellFormedResult (_get_stock_quote dc symbol) := by
  unfold _get_stock_quote
  cases dc.get_stock_latest_quote symbol with
  | ok qs =>
    dsimp only
    cases quoteLookup qs symbol with
    | ok q => exact wellFormed_cleanObj _ rfl
    | error e => exact wellFormed_errObj e
  | error e => exact wellFormed_errObj e

theorem wellFormed_close (tc : TradingClient) (symbol : JVal) :
    WellFormedResult (_close_position tc symbol) := by
  unfold _close_position
  cases tc.close_position symbol with
  | ok u => exact wellFormed_cleanObj _ rfl
  | error e => exact wellFormed_errObj e

theorem wellFormed_closeAll (tc : TradingClient) (cancel_orders : JVal) :
    WellFormedResult (_close_all_positions tc cancel_orders) := by
  unfold _close_all_positions
  cases tc.close_all_positions cancel_orders with
  | ok u => exact wellFormed_cleanObj _ rfl
  | error e => exact wellFormed_errObj e

theorem wellFormed_runCaught (r : Except String JVal)
    (h : ∀ v, r = .ok v → WellFormedResult v) :
    WellFormedResult (runCaught r) := by
  cases r with
  | ok v => exact h v rfl
  | error e => exact wellFormed_errObj e

theorem except_bind_ok {α β : Type} {e : Except String α}
    {f : α → Except String β} {v : β} (h : (e >>= f) = .ok v) :
    ∃ a, e = .ok a ∧ f a = .ok v := by
  cases e with
  | error err => exact absurd h (fun hh => Except.noConfusion hh)
  | ok a => exact ⟨a, rfl, h⟩

/-! ## Claim C1 -/

/-- C1, as stated, is refuted on the code: the claim says every result is a
success object or an error object `{error: string}`, but a failure inside
`get_positions` is returned as a one-element JSON *array* `[{"error": s}]`
(line 330), which is not an object at all.  Concretely: with a client whose
`get_all_positions` raises `Exception("boom")`, `call_tool` on
`get_positions` returns `[{"error": "boom"}]`. -/
theorem claim_C1_counterexample :
    call_tool tcFail dcFail "get_positions" [] = .arr [errObj "boom"] ∧
    isObjVal (.arr [errObj "boom"]) = false :=
  ⟨rfl, rfl⟩

/-- C1 (amended): for every tool name, argument map and client behaviour,
`call_tool` returns exactly one well-formed result — a success payload (an
object, or an array of objects, with no `error` key) or an error payload
(the object `{error: string}`, wrapped for the two list-returning tools in a
one-element array) — and never both and never neither; no exception escapes
to the caller (the model's dispatcher is a total function: every internal
operation catches broadly and the top-level handler catches again). -/
theorem claim_C1_amended (tc : TradingClient) (dc : DataClient) (name : String)
    (args : List (String × JVal)) :
    WellFormedResult (call_tool tc dc name args) := by
  unfold call_tool
  apply wellFormed_runCaught
  intro v hv
  by_cases h1 : name = "get_account_info"
  · rw [if_pos h1] at hv; injection hv with hv; exact hv ▸ wellFormed_account tc
  rw [if_neg h1] at hv
  by_cases h2 : name = "get_positions"
  · rw [if_pos h2] at hv; injection hv with hv; exact hv ▸ wellFormed_positions tc
  rw [if_neg h2] at hv
  by_cases h3 : name = "get_orders"
  · rw [if_pos h3] at hv; injection hv with hv
    exact hv ▸ wellFormed_orders tc _
  rw [if_neg h3] at hv
  by_cases h4 : name = "place_market_order"
  · rw [if_pos h4] at hv
    obtain ⟨symbol, -, hv⟩ := except_bind_ok hv
    obtain ⟨quantity, -, hv⟩ := except_bind_ok hv
    obtain ⟨side, -, hv⟩ := except_bind_ok hv
    injection hv with hv
    exact hv ▸ wellFormed_market tc symbol quantity side
  rw [if_neg h4] at hv
  by_cases h5 : name = "place_limit_order"
  · rw [if_pos h5] at hv
    obtain ⟨symbol, -, hv⟩ := except_bind_ok hv
    obtain ⟨quantity, -, hv⟩ := except_bind_ok hv
    obtain ⟨side, -, hv⟩ := except_bind_ok hv
    obtain ⟨limit_price, -, hv⟩ := except_bind_ok hv
    injection hv with hv
    exact hv ▸ wellFormed_limit tc symbol quantity side limit_price
  rw [if_neg h5] at hv
  by_cases h6 : name = "cancel_order"
  · rw [if_pos h6] at hv
    obtain ⟨order_id, -, hv⟩ := except_bind_ok hv
    injection hv with hv
    exact hv ▸ wellFormed_cancel tc order_id
  rw [if_neg h6] at hv
  by_cases h7 : name = "get_stock_quote"
  · rw [if_pos h7] at hv
    obtain ⟨symbol, -, hv⟩ := except_bind_ok hv
    injection hv with hv
    exact hv ▸ wellFormed_quote dc symbol
  rw [if_neg h7] at hv
  by_cases h8 : name = "close_position"
  · rw [if_pos h8] at hv
    obtain ⟨symbol, -, hv⟩ := except_bind_ok hv
    injection hv with hv
    exact hv ▸ wellFormed_close tc symbol
  rw [if_neg h8] at hv
  by_cases h9 : name = "close_all_positions"
  · rw [if_pos h9] at hv; injection hv with hv
    exact hv ▸ wellFormed_closeAll tc _
  rw [if_neg h9] at hv
  injection hv with hv
  exact hv ▸ wellFormed_errObj _

/-! ## Claim C2 -/

/-- C2: for every name outside the 9-entry catalog and every argument map
and client behaviour, `call_tool` returns exactly the normalized error
object `{"error": "Unknown tool: <name>"}` with the name interpolated,
rather than raising. -/
theorem claim_C2 (tc : TradingClient) (dc : DataClient) (name : String)
    (args : List (String × JVal))
    (h : name ∉ list_tools.map Tool.name) :
    call_tool tc dc name args = errObj ("Unknown tool: " ++ name) := by
  simp only [list_tools, List.map_cons, List.map_nil, List.mem_cons,
    List.not_mem_nil, or_false, not_or] at h
  obtain ⟨h1, h2, h3, h4, h5, h6, h7, h8, h9⟩ := h
  unfold call_tool
  rw [if_neg h1, if_neg h2, if_neg h3, if_neg h4, if_neg h5, if_neg h6,
    if_neg h7, if_neg h8, if_neg h9]
  rfl

/-- Witness for C2 at the spec's own example input. -/
theorem claim_C2_witness :
    call_tool tcFail dcFail "nonexistent_tool" []
      = errObj "Unknown tool: nonexistent_tool" :=
  claim_C2 tcFail dcFail "nonexistent_tool" [] (by decide)

/-! ## Claim C3 -/

/-- C3, as stated, is refuted on the code: `daytrading_buying_power` is not
the sole absent-to-`0` exception.  Line 348 maps an absent `filled_qty` to
the integer `0` as well (`float(order.filled_qty) if order.filled_qty else
0`), not to `null`.  Concretely: on `sampleOrder`, whose `filled_qty` is
absent, the rendered order row carries `"filled_qty": 0`, not `null`. -/
theorem claim_C3_counterexample :
    sampleOrder.filled_qty = none ∧
    rowField (orderRow sampleOrder) "filled_qty" = some (.int 0) ∧
    some (JVal.int 0) ≠ some JVal.null :=
  ⟨rfl, rfl, by simp⟩

/-- C3 (amended): every absent money-like numeric field (`current_price`,
`lastday_price`, `change_today`, `limit_price`, `stop_price`,
`filled_avg_price`) maps to `null` in the output, with *two* exceptions that
map to `0` when absent: `daytrading_buying_power` and `filled_qty`. -/
theorem claim_C3_amended (a : RawAccount) (o : RawOrder) (p : RawPosition)
    (ha : a.daytrading_buying_power = none)
    (hfq : o.filled_qty = none) (hlp : o.limit_price = none)
    (hsp : o.stop_price = none) (hfa : o.filled_avg_price = none)
    (hcp : p.current_price = none) (hld : p.lastday_price = none)
    (hct : p.change_today = none) :
    rowField (accountInfoObj a) "daytrading_buying_power" = some (.int 0) ∧
    rowField (orderRow o) "filled_qty" = some (.int 0) ∧
    rowField (orderRow o) "limit_price" = some .null ∧
    rowField (orderRow o) "stop_price" = some .null ∧
    rowField (orderRow o) "filled_avg_price" = some .null ∧
    rowField (positionRow p) "current_price" = some .null ∧
    rowField (positionRow p) "lastday_price" = some .null ∧
    rowField (positionRow p) "change_today" = some .null := by
  refine ⟨?_, ?_, ?_, ?_, ?_, ?_, ?_, ?_⟩
  · simp only [rowField, accountInfoObj, ha]; rfl
  · simp only [rowField, orderRow, hfq]; rfl
  · simp only [rowField, orderRow, hlp, optNum]; rfl
  · simp only [rowField, orderRow, hsp, optNum]; rfl
  · simp only [rowField, orderRow, hfa, optNum]; rfl
  · simp only [rowField, positionRow, hcp, optNum]; rfl
  · simp only [rowField, positionRow, hld, optNum]; rfl
  · simp only [rowField, positionRow, hct, optNum]; rfl

/-- Witness for C3 (amended) at fixtures with all optional fields absent. -/
theorem claim_C3_amended_witness :
    rowField (accountInfoObj sampleAccount) "daytrading_buying_power" = some (.int 0) ∧
    rowField (orderRow sampleOrder) "filled_qty" = some (.int 0) ∧
    rowField (orderRow sampleOrder) "limit_price" = some .null ∧
    rowField (orderRow sampleOrder) "stop_price" = some .null ∧
    rowField (orderRow sampleOrder) "filled_avg_price" = some .null ∧
    rowField (positionRow samplePosition) "current_price" = some .null ∧
    rowField (positionRow samplePosition) "lastday_price" = some .null ∧
    rowField (positionRow samplePosition) "change_today" = some .null :=
  claim_C3_amended sampleAccount sampleOrder samplePosition
    rfl rfl rfl rfl rfl rfl rfl rfl

/-! ## Claim C4 -/

/-- C4, as stated, is refuted on the code: `call_tool` defaults a missing
`status` argument to `"open"` (`arguments.get("status", "open")`, line 227),
so `callTool("get_orders", {})` issues the OPEN filter, not no filter.
Against a client whose OPEN-filtered listing has one order while the
unfiltered listing has two, `{status: "all"}` and `{}` return different
result sets. -/
theorem claim_C4_counterexample :
    call_tool tcOrders dcFail "get_orders" [("status", JVal.str "all")]
      = .arr [orderRow sampleOrder, orderRow order2] ∧
    call_tool tcOrders dcFail "get_orders" []
      = .arr [orderRow sampleOrder] ∧
    JVal.arr [orderRow sampleOrder, orderRow order2]
      ≠ JVal.arr [orderRow sampleOrder] := by
  refine ⟨rfl, rfl, ?_⟩
  intro h
  injection h with h
  simp at h

/-- C4 (amended): `callTool("get_orders", {status: "all"})` issues no status
filter, but `callTool("get_orders", {})` defaults the status to `"open"` and
issues the OPEN filter; the two agree only when the client's open-filtered
order set equals its unfiltered one. -/
theorem claim_C4_amended (tc : TradingClient) (dc : DataClient)
    (args : List (String × JVal)) (h : alookup args "status" = none) :
    call_tool tc dc "get_orders" args = _get_orders tc (.str "open") ∧
    ordersRequestFor (.str "open") = ⟨some QueryOrderStatus.open⟩ ∧
    ordersRequestFor (.str "all") = ⟨none⟩ ∧
    call_tool tc dc "get_orders" [("status", JVal.str "all")]
      = (match tc.get_orders ⟨none⟩ with
         | .ok os => .arr (os.map orderRow)
         | .error e => .arr [errObj e]) := by
  refine ⟨?_, rfl, rfl, rfl⟩
  have e1 : call_tool tc dc "get_orders" args
      = _get_orders tc (getD args "status" (.str "open")) := rfl
  rw [e1, show getD args "status" (.str "open") = .str "open" by
    simp [getD, h]]

/-- Witness for C4 (amended) at the two-order client with empty arguments. -/
theorem claim_C4_amended_witness :
    call_tool tcOrders dcFail "get_orders" [] = _get_orders tcOrders (.str "open") ∧
    ordersRequestFor (.str "open") = ⟨some QueryOrderStatus.open⟩ ∧
    ordersRequestFor (.str "all") = ⟨none⟩ ∧
    call_tool tcOrders dcFail "get_orders" [("status", JVal.str "all")]
      = (match tcOrders.get_orders ⟨none⟩ with
         | .ok os => .arr (os.map orderRow)
         | .error e => .arr [errObj e]) :=
  claim_C4_amended tcOrders dcFail [] rfl

/-! ## Claim C5 -/

/-- C5: for every string `side` argument to the two order-placement helpers,
the side sent to the brokerage is BUY iff the string lowercases to `"buy"`,
and SELL for every other string; no validation error occurs — whenever the
client accepts the submitted request, the helper returns its success
payload, whatever the side string was. -/
theorem claim_C5 (symbol quantity limit_price : JVal) (s : String) :
    ((marketOrderRequestFor symbol quantity s).side = OrderSide.buy ↔
      lowerStr s = "buy") ∧
    ((limitOrderRequestFor symbol quantity s limit_price).side = OrderSide.buy ↔
      lowerStr s = "buy") ∧
    (lowerStr s ≠ "buy" →
      (marketOrderRequestFor symbol quantity s).side = OrderSide.sell ∧
      (limitOrderRequestFor symbol quantity s limit_price).side = OrderSide.sell) ∧
    (∀ (tc : TradingClient) (o : RawOrder),
      tc.submit_market_order (marketOrderRequestFor symbol quantity s) = .ok o →
      _place_market_order tc symbol quantity (.str s) = marketOrderResultObj o) := by
  refine ⟨?_, ?_, ?_, ?_⟩
  · unfold marketOrderRequestFor orderSideFor
    by_cases hb : lowerStr s = "buy" <;> simp [hb]
  · unfold limitOrderRequestFor orderSideFor
    by_cases hb : lowerStr s = "buy" <;> simp [hb]
  · intro hb
    unfold marketOrderRequestFor limitOrderRequestFor orderSideFor
    simp [hb]
  · intro tc o h
    unfold _place_market_order
    dsimp only
    rw [h]

/-- Witness for C5 at the unrecognized side string `"BOGUS"`. -/
theorem claim_C5_witness :
    ((marketOrderRequestFor (.str "AAPL") (.num 1) "BOGUS").side = OrderSide.buy ↔
      lowerStr "BOGUS" = "buy") ∧
    (marketOrderRequestFor (.str "AAPL") (.num 1) "BOGUS").side = OrderSide.sell ∧
    (limitOrderRequestFor (.str "AAPL") (.num 1) "BOGUS" (.num 10)).side
      = OrderSide.sell ∧
    _place_market_order tcAccept (.str "AAPL") (.num 1) (.str "BOGUS")
      = marketOrderResultObj sampleOrder := by
  refine ⟨(claim_C5 (.str "AAPL") (.num 1) (.num 10) "BOGUS").1, ?_, ?_, ?_⟩
  · exact ((claim_C5 (.str "AAPL") (.num 1) (.num 10) "BOGUS").2.2.1 (by decide)).1
  · exact ((claim_C5 (.str "AAPL") (.num 1) (.num 10) "BOGUS").2.2.1 (by decide)).2
  · exact (claim_C5 (.str "AAPL") (.num 1) (.num 10) "BOGUS").2.2.2
      tcAccept sampleOrder rfl

/-! ## Claim C6 -/

/-- C6: inside `get_orders`, the remote filter is OPEN for the status string
`"open"`, CLOSED for `"closed"`, and absent for every other string
(including `"all"`), in which case the client's unfiltered (full) order
listing is what gets rendered. -/
theorem claim_C6 (s : String) (tc : TradingClient) (L : List RawOrder) :
    ordersRequestFor (.str "open") = ⟨some QueryOrderStatus.open⟩ ∧
    ordersRequestFor (.str "closed") = ⟨some QueryOrderStatus.closed⟩ ∧
    (s ≠ "open" → s ≠ "closed" → ordersRequestFor (.str s) = ⟨none⟩) ∧
    (s ≠ "open" → s ≠ "closed" → tc.get_orders ⟨none⟩ = .ok L →
      _get_orders tc (.str s) = .arr (L.map orderRow)) := by
  refine ⟨rfl, rfl, ?_, ?_⟩
  · intro h1 h2
    simp [ordersRequestFor, h1, h2]
  · intro h1 h2 h3
    unfold _get_orders
    rw [show ordersRequestFor (.str s) = ⟨none⟩ by
      simp [ordersRequestFor, h1, h2], h3]

/-- Witness for C6 at the status string `"all"` and the two-order client. -/
theorem claim_C6_witness :
    ordersRequestFor (.str "open") = ⟨some QueryOrderStatus.open⟩ ∧
    ordersRequestFor (.str "closed") = ⟨some QueryOrderStatus.closed⟩ ∧
    ordersRequestFor (.str "all") = ⟨none⟩ ∧
    _get_orders tcOrders (.str "all")
      = .arr ([sampleOrder, order2].map orderRow) := by
  obtain ⟨a, b, c, d⟩ := claim_C6 "all" tcOrders [sampleOrder, order2]
  exact ⟨a, b, c (by decide) (by decide), d (by decide) (by decide) rfl⟩

/-! ## Claim C7 -/

/-- C7: for every string symbol argument, when the quote batch the data
client returns lacks an entry keyed by that symbol, `call_tool` on
`get_stock_quote` returns the generic error object (the `KeyError`'s
rendering `'sym'`), and no fault escapes to the caller. -/
theorem claim_C7 (tc : TradingClient) (dc : DataClient) (s : String)
    (args : List (String × JVal)) (qs : List (String × RawQuote))
    (hargs : alookup args "symbol" = some (.str s))
    (hq : dc.get_stock_latest_quote (.str s) = .ok qs)
    (hmiss : qs.lookup s = none) :
    call_tool tc dc "get_stock_quote" args = errObj ("'" ++ s ++ "'") := by
  have e1 : call_tool tc dc "get_stock_quote" args
      = runCaught (getItem args "symbol" >>= fun symbol =>
          pure (_get_stock_quote dc symbol)) := rfl
  rw [e1, show getItem args "symbol" = .ok (.str s) by simp [getItem, hargs]]
  show _get_stock_quote dc (.str s) = _
  unfold _get_stock_quote
  rw [hq]
  dsimp only
  simp only [quoteLookup, hmiss]

/-- Witness for C7: quoting `"MSFT"` against a client returning an empty
quote batch. -/
theorem claim_C7_witness :
    call_tool tcFail dcEmpty "get_stock_quote" [("symbol", JVal.str "MSFT")]
      = errObj "'MSFT'" :=
  claim_C7 tcFail dcEmpty "MSFT" [("symbol", JVal.str "MSFT")] [] rfl rfl rfl

/-! ## Claim C8 -/

/-- C8: `list_tools` takes no inputs and always succeeds (it is a constant of
the model, so repeated calls are identical by construction, matching the
literal re-construction in the source); it returns exactly the 9 catalog
entries with the exact name strings, required argument lists, and optional
argument sets, in the stated order. -/
theorem claim_C8 :
    list_tools.length = 9 ∧
    list_tools.map Tool.name = ["get_account_info", "get_positions",
      "get_orders", "place_market_order", "place_limit_order", "cancel_order",
      "get_stock_quote", "close_position", "close_all_positions"] ∧
    list_tools.map requiredOf = [[], [], [],
      ["symbol", "quantity", "side"],
      ["symbol", "quantity", "side", "limit_price"],
      ["order_id"], ["symbol"], ["symbol"], []] ∧
    list_tools.map optionalOf = [[], [], ["status"], [], [], [], [], [],
      ["cancel_orders"]] := by
  refine ⟨rfl, rfl, ?_, ?_⟩ <;> rfl

/-! ## Claim C9 -/

theorem getItem_none {args : List (String × JVal)} {k : String}
    (h : alookup args k = none) :
    getItem args k = .error ("'" ++ k ++ "'") := by
  simp [getItem, h]

theorem getItem_some {args : List (String × JVal)} {k : String} {v : JVal}
    (h : alookup args k = some v) : getItem args k = .ok v := by
  simp [getItem, h]

theorem bind_err {α β : Type} (e : String) (f : α → Except String β) :
    (Except.error e >>= f) = Except.error e := rfl

theorem bind_ok {α β : Type} (a : α) (f : α → Except String β) :
    (Except.ok a >>= f) = f a := rfl

theorem runCaught_err (e : String) : runCaught (.error e) = errObj e := rfl

/-- C9: for each tool with required arguments, invoking it with a required
argument absent makes the `arguments[...]` lookup raise `KeyError`, which is
caught by the top-level handler and returned as `{error: <message>}` (for
the single-argument tools, exactly the `KeyError` rendering). -/
theorem claim_C9 (tc : TradingClient) (dc : DataClient)
    (args : List (String × JVal)) :
    ((alookup args "symbol" = none ∨ alookup args "quantity" = none ∨
        alookup args "side" = none) →
      ∃ msg, call_tool tc dc "place_market_order" args = errObj msg) ∧
    ((alookup args "symbol" = none ∨ alookup args "quantity" = none ∨
        alookup args "side" = none ∨ alookup args "limit_price" = none) →
      ∃ msg, call_tool tc dc "place_limit_order" args = errObj msg) ∧
    (alookup args "order_id" = none →
      call_tool tc dc "cancel_order" args = errObj "'order_id'") ∧
    (alookup args "symbol" = none →
      call_tool tc dc "get_stock_quote" args = errObj "'symbol'") ∧
    (alookup args "symbol" = none →
      call_tool tc dc "close_position" args = errObj "'symbol'") := by
  have em : call_tool tc dc "place_market_order" args
      = runCaught (getItem args "symbol" >>= fun symbol =>
          getItem args "quantity" >>= fun quantity =>
          getItem args "side" >>= fun side =>
          pure (_place_market_order tc symbol quantity side)) := rfl
  have el : call_tool tc dc "place_limit_order" args
      = runCaught (getItem args "symbol" >>= fun symbol =>
          getItem args "quantity" >>= fun quantity =>
          getItem args "side" >>= fun side =>
          getItem args "limit_price" >>= fun limit_price =>
          pure (_place_limit_order tc symbol quantity side limit_price)) := rfl
  have ec : call_tool tc dc "cancel_order" args
      = runCaught (getItem args "order_id" >>= fun order_id =>
          pure (_cancel_order tc order_id)) := rfl
  have eq : call_tool tc dc "get_stock_quote" args
      = runCaught (getItem args "symbol" >>= fun symbol =>
          pure (_get_stock_quote dc symbol)) := rfl
  have ep : call_tool tc dc "close_position" args
      = runCaught (getItem args "symbol" >>= fun symbol =>
          pure (_close_position tc symbol)) := rfl
  refine ⟨?_, ?_, ?_, ?_, ?_⟩
  · intro h
    rcases hs : alookup args "symbol" with - | v1
    · exact ⟨"'symbol'", by rw [em, getItem_none hs, bind_err, runCaught_err]; rfl⟩
    rcases hq : alookup args "quantity" with - | v2
    · exact ⟨"'quantity'", by
        rw [em, getItem_some hs, bind_ok, getItem_none hq, bind_err,
          runCaught_err]; rfl⟩
    rcases hd : alookup args "side" with - | v3
    · exact ⟨"'side'", by
        rw [em, getItem_some hs, bind_ok, getItem_some hq, bind_ok,
          getItem_none hd, bind_err, runCaught_err]; rfl⟩
    rcases h with h | h | h <;> simp_all
  · intro h
    rcases hs : alookup args "symbol" with - | v1
    · exact ⟨"'symbol'", by rw [el, getItem_none hs, bind_err, runCaught_err]; rfl⟩
    rcases hq : alookup args "quantity" with - | v2
    · exact ⟨"'quantity'", by
        rw [el, getItem_some hs, bind_ok, getItem_none hq, bind_err,
          runCaught_err]; rfl⟩
    rcases hd : alookup args "side" with - | v3
    · exact ⟨"'side'", by
        rw [el, getItem_some hs, bind_ok, getItem_some hq, bind_ok,
          getItem_none hd, bind_err, runCaught_err]; rfl⟩
    rcases hl : alookup args "limit_price" with - | v4
    · exact ⟨"'limit_price'", by
        rw [el, getItem_some hs, bind_ok, getItem_some hq, bind_ok,
          getItem_some hd, bind_ok, getItem_none hl, bind_err, runCaught_err]; rfl⟩
    rcases h with h | h | h | h <;> simp_all
  · intro h
    rw [ec, getItem_none h, bind_err, runCaught_err]
    rfl
  · intro h
    rw [eq, getItem_none h, bind_err, runCaught_err]
    rfl
  · intro h
    rw [ep, getItem_none h, bind_err, runCaught_err]
    rfl

/-- Witness for C9: all five tools invoked with an empty argument map. -/
theorem claim_C9_witness :
    (∃ msg, call_tool tcFail dcFail "place_market_order" [] = errObj msg) ∧
    (∃ msg, call_tool tcFail dcFail "place_limit_order" [] = errObj msg) ∧
    call_tool tcFail dcFail "cancel_order" [] = errObj "'order_id'" ∧
    call_tool tcFail dcFail "get_stock_quote" [] = errObj "'symbol'" ∧
    call_tool tcFail dcFail "close_position" [] = errObj "'symbol'" :=
  ⟨(claim_C9 tcFail dcFail []).1 (Or.inl rfl),
   (claim_C9 tcFail dcFail []).2.1 (Or.inl rfl),
   (claim_C9 tcFail dcFail []).2.2.1 rfl,
   (claim_C9 tcFail dcFail []).2.2.2.1 rfl,
   (claim_C9 tcFail dcFail []).2.2.2.2 rfl⟩

/-! ## Claim C10 -/

/-- C10: a failure inside `get_positions` or `get_orders` is returned as a
one-element JSON array containing the error object, `[{error: s}]`, while
the other tools (here `get_account_info` and `close_all_positions`) return
the bare error object `{error: s}`; the two serialized shapes are never
equal. -/
theorem claim_C10 (tc : TradingClient) (dc : DataClient)
    (args : List (String × JVal)) (e : String)
    (hp : tc.get_all_positions = .error e)
    (ho : ∀ req, tc.get_orders req = .error e)
    (ha : tc.get_account = .error e)
    (hca : ∀ v, tc.close_all_positions v = .error e) :
    call_tool tc dc "get_positions" args = .arr [errObj e] ∧
    call_tool tc dc "get_orders" args = .arr [errObj e] ∧
    call_tool tc dc "get_account_info" args = errObj e ∧
    call_tool tc dc "close_all_positions" args = errObj e ∧
    (∀ s, JVal.arr [errObj e] ≠ errObj s) := by
  refine ⟨?_, ?_, ?_, ?_, ?_⟩
  · have e1 : call_tool tc dc "get_positions" args = _get_positions tc := rfl
    rw [e1]; unfold _get_positions; rw [hp]
  · have e1 : call_tool tc dc "get_orders" args
        = _get_orders tc (getD args "status" (.str "open")) := rfl
    rw [e1]; unfold _get_orders; rw [ho]
  · have e1 : call_tool tc dc "get_account_info" args = _get_account_info tc := rfl
    rw [e1]; unfold _get_account_info; rw [ha]
  · have e1 : call_tool tc dc "close_all_positions" args
        = _close_all_positions tc (getD args "cancel_orders" (.bool false)) := rfl
    rw [e1]; unfold _close_all_positions; rw [hca]
  · intro s h
    rw [errObj] at h
    exact JVal.noConfusion h

/-- Witness for C10 at the all-raising client. -/
theorem claim_C10_witness :
    call_tool tcFail dcFail "get_positions" [] = .arr [errObj "boom"] ∧
    call_tool tcFail dcFail "get_orders" [] = .arr [errObj "boom"] ∧
    call_tool tcFail dcFail "get_account_info" [] = errObj "boom" ∧
    call_tool tcFail dcFail "close_all_positions" [] = errObj "boom" ∧
    (∀ s, JVal.arr [errObj "boom"] ≠ errObj s) :=
  claim_C10 tcFail dcFail [] "boom" rfl (fun _ => rfl) rfl (fun _ => rfl)
